import Mathlib

/-!
Verification of the MessagingPlanner sync, cache and aggregation core.

The definitions below are a shallow embedding of the JavaScript sources:

  * the WhatsApp provider service (class WhatsAppService),
  * the Gmail provider service (class GmailService),
  * the Notion provider service (class NotionService),
  * the SQLite-backed DatabaseService,
  * the cache helpers and IPC handlers in main.js.

Times are modelled as `Int`: epoch seconds for sync and message data,
epoch milliseconds for the summary cache (as in the source).  Network
calls (the WhatsApp client, the Gmail API, the Notion API, the AI
summarizer) are modelled as explicit inputs carrying either a result
or an error, mirroring the try/catch structure of each function.
-/

namespace MessagingPlanner

/-- Thirty days in seconds: `30 * 24 * 60 * 60`, the rolling sync window. -/
def monthSeconds : Int := 30 * 24 * 60 * 60

/-- Seven days in seconds: `7 * 24 * 60 * 60`. -/
def weekSeconds : Int := 7 * 24 * 60 * 60

/-! ## The SQLite store (DatabaseService)

Each table has a TEXT PRIMARY KEY `id`; we model a table as an
association list from id to the remaining row.  `INSERT OR REPLACE`
replaces the row with the same primary key, which `upsertRow` models by
dropping any previous binding of the id. -/

/-- A table keyed by its TEXT PRIMARY KEY id column. -/
abbrev Table (ρ : Type) := List (String × ρ)

/-- SQLite `INSERT OR REPLACE`: the new row replaces any row with the same id. -/
def upsertRow {ρ : Type} (t : Table ρ) (id : String) (row : ρ) : Table ρ :=
  (id, row) :: t.filter (fun p => p.1 != id)

/-- The prepared-statement loop inside the `db.transaction` of the bulk upsert methods. -/
def bulkUpsert {ρ : Type} (t : Table ρ) (rows : List (String × ρ)) : Table ρ :=
  rows.foldl (fun acc r => upsertRow acc r.1 r.2) t

/-- `SELECT ... WHERE id = ?`: the row stored under an id, if any. -/
def lookupRow {ρ : Type} (t : Table ρ) (id : String) : Option ρ :=
  (t.find? (fun p => p.1 == id)).map (fun p => p.2)

/-- A row of the `sync_log` table (source TEXT PRIMARY KEY). -/
structure SyncLogEntry where
  last_sync_at : Int
  records_synced : Int
deriving Repr, DecidableEq

/-- A row of the `whatsapp_messages` table (without the id primary key). -/
structure StoredWAMsg where
  chat_id : String
  chat_name : String
  is_group : Bool
  sender : String
  body : String
  timestamp : Int
  from_me : Bool
  has_media : Bool
deriving Repr, DecidableEq

/-- A row of the `whatsapp_chats` table (without the id primary key). -/
structure WAChatRow where
  name : String
  is_group : Bool
  participant_count : Nat
  last_message_at : Int
deriving Repr, DecidableEq

/-- A row of the `gmail_messages` table (without the id primary key). -/
structure StoredEmail where
  thread_id : String
  from_email : String
  from_name : String
  to_email : String
  subject : String
  snippet : Option String
  body_preview : String
  timestamp : Int
  is_unread : Bool
  labels : List String
  category : String
deriving Repr, DecidableEq

/-- A row of the `notion_pages` table (without the id primary key).  The
JSON-serialized `properties` column is opaque to every claim and omitted. -/
structure NotionPageRow where
  title : String
  parent_id : Option String
  parent_type : String
  url : String
  created_time : Int
  last_edited_time : Int
  content_preview : String
deriving Repr, DecidableEq

/-- The state owned by DatabaseService: the four data tables and the sync log. -/
structure SyncDb where
  whatsapp_messages : Table StoredWAMsg
  whatsapp_chats : Table WAChatRow
  gmail_messages : Table StoredEmail
  notion_pages : Table NotionPageRow
  sync_log : Table SyncLogEntry
deriving Repr, DecidableEq

/-- `DatabaseService.getLastSyncTime`: the stored watermark, null when absent. -/
def getLastSyncTime (db : SyncDb) (source : String) : Option Int :=
  (lookupRow db.sync_log source).map (fun e => e.last_sync_at)

/-- `DatabaseService.updateSyncLog`: INSERT OR REPLACE the watermark row,
with `last_sync_at` set to the current wall-clock time. -/
def updateSyncLog (db : SyncDb) (source : String) (now : Int) (recordsSynced : Int) : SyncDb :=
  { db with sync_log := upsertRow db.sync_log source ⟨now, recordsSynced⟩ }

/-! ## JavaScript helpers -/

/-- JavaScript truthiness of the nullable numeric watermark: null and 0 are falsy. -/
def watermarkTruthy : Option Int → Bool
  | some t => t != 0
  | none => false

/-- JavaScript `a || b` for a nullable string: null and the empty string fall through. -/
def jsOrStr (a : Option String) (b : String) : String :=
  match a with
  | some s => if s = "" then b else s
  | none => b

/-- ASCII lowering of one character, the fragment of `toLowerCase`
exercised by the categorizer keywords. -/
def charLower (c : Char) : Char :=
  if 65 ≤ c.toNat ∧ c.toNat ≤ 90 then Char.ofNat (c.toNat + 32) else c

/-- String lowering, `s.toLowerCase()`. -/
def lowerStr (s : String) : String := String.mk (s.toList.map charLower)

/-- Whether `kw` occurs as a contiguous run inside the character list. -/
def containsSub (kw : List Char) : List Char → Bool
  | [] => kw.isEmpty
  | c :: t => kw.isPrefixOf (c :: t) || containsSub kw t

/-- JavaScript `hay.includes(kw)`: substring containment. -/
def strContains (hay kw : String) : Bool := containsSub kw.toList hay.toList

/-- JavaScript `s.substring(0, n)`. -/
def strTake (s : String) (n : Nat) : String := String.mk (s.toList.take n)

/-- JavaScript `s.trim()`: strip leading and trailing whitespace. -/
def strTrim (s : String) : String :=
  String.mk (((s.toList.dropWhile Char.isWhitespace).reverse.dropWhile Char.isWhitespace).reverse)

/-! ## WhatsAppService.syncToDatabase -/

/-- The sync window start chosen by `WhatsAppService.syncToDatabase`:
`(!fullSync && lastSyncTime && lastSyncTime > monthAgo) ? lastSyncTime : monthAgo`. -/
def whatsappSyncFromTime (fullSync : Bool) (lastSyncTime : Option Int) (now : Int) : Int :=
  if !fullSync && watermarkTruthy lastSyncTime && decide (lastSyncTime.getD 0 > now - monthSeconds)
  then lastSyncTime.getD 0 else now - monthSeconds

/-- `isIncremental = syncFromTime > monthAgo` in `WhatsAppService.syncToDatabase`. -/
def whatsappIsIncremental (fullSync : Bool) (lastSyncTime : Option Int) (now : Int) : Bool :=
  decide (whatsappSyncFromTime fullSync lastSyncTime now > now - monthSeconds)

/-- A message as returned by `chat.fetchMessages` (the fields the sync reads). -/
structure RawWAMsg where
  idSerialized : Option String
  author : Option String
  fromId : String
  body : Option String
  timestamp : Int
  fromMe : Bool
  hasMedia : Bool
deriving Repr, DecidableEq

/-- A chat as returned by `client.getChats`, together with the outcome of
`chat.fetchMessages({limit})` as a function of the requested limit.  The
network call can fail, which the `Except` models. -/
structure ChatFetch where
  id : String
  name : Option String
  idUser : Option String
  isGroup : Bool
  participantCount : Nat
  timestamp : Option Int
  fetched : Nat → Except String (List RawWAMsg)

/-- `WhatsAppService.formatSender` on a string sender id: a leading run of
digits followed by an at-sign becomes a plus-prefixed number. -/
def formatSender (sender : String) : String :=
  if sender = "" then "Unknown"
  else
    let digits := sender.toList.takeWhile (fun c => c.isDigit)
    if digits.length > 0 && ((sender.toList.drop digits.length).head? == some '@')
    then "+" ++ String.mk digits
    else sender

/-- `chat.name || chat.id.user || 'Unknown'`. -/
def chatDisplayName (c : ChatFetch) : String :=
  jsOrStr c.name (jsOrStr c.idUser "Unknown")

/-- `m.id._serialized || chatId_timestamp` fallback id for a stored message. -/
def waMsgId (chatId : String) (m : RawWAMsg) : String :=
  jsOrStr m.idSerialized (chatId ++ "_" ++ toString m.timestamp)

/-- The record pushed into `messagesToStore` for one fetched message. -/
def toStoredWAMsg (chat : ChatFetch) (m : RawWAMsg) : StoredWAMsg :=
  { chat_id := chat.id
    chat_name := chatDisplayName chat
    is_group := chat.isGroup
    sender := formatSender (jsOrStr m.author m.fromId)
    body := m.body.getD ""
    timestamp := m.timestamp
    from_me := m.fromMe
    has_media := m.hasMedia }

/-- The argument of `upsertWhatsAppChat` for one chat. -/
def waChatRowOf (c : ChatFetch) : WAChatRow :=
  { name := chatDisplayName c
    is_group := c.isGroup
    participant_count := c.participantCount
    last_message_at := c.timestamp.getD 0 }

/-- The per-chat loop of `WhatsAppService.syncToDatabase`: store the chat
row, fetch its messages (limit 100 incremental, 500 full), keep those
newer than the window start, bulk-upsert them, and accumulate the
totals.  A fetch error aborts the loop, keeping the rows already
written; the accumulated counters are `(newMessages, totalChecked)`. -/
def waProcessChats (syncFromTime : Int) (isIncremental : Bool) :
    List ChatFetch → SyncDb → Nat → Nat → (Except String (Nat × Nat)) × SyncDb
  | [], db, total, newM => (.ok (newM, total), db)
  | chat :: rest, db, total, newM =>
    let db1 := { db with whatsapp_chats := upsertRow db.whatsapp_chats chat.id (waChatRowOf chat) }
    match chat.fetched (if isIncremental then 100 else 500) with
    | .error e => (.error e, db1)
    | .ok messages =>
      let newMsgs := messages.filter (fun m => decide (m.timestamp > syncFromTime))
      let stored :=
        if newMsgs.length > 0 then
          bulkUpsert db1.whatsapp_messages (newMsgs.map (fun m => (waMsgId chat.id m, toStoredWAMsg chat m)))
        else db1.whatsapp_messages
      let db2 := { db1 with whatsapp_messages := stored }
      waProcessChats syncFromTime isIncremental rest db2 (total + messages.length) (newM + newMsgs.length)

/-- The value of `WhatsAppService.syncToDatabase`: either the success
object `{success, newMessages, totalChecked, isIncremental}` or the
structured `{error}` object. -/
inductive WASyncResult where
  | ok (newMessages totalChecked : Nat) (isIncremental : Bool)
  | err (msg : String)
deriving Repr, DecidableEq

/-- `WhatsAppService.syncToDatabase`.  `isReady`/`hasClient` are the
connection gate, `hasDb` the database gate, `getChats` the outcome of
`client.getChats()`.  Only the first 50 chats are processed.  Any fetch
error is caught and returned as a structured error result. -/
def whatsappSyncToDatabase (isReady hasClient hasDb : Bool)
    (getChats : Except String (List ChatFetch)) (fullSync : Bool) (now : Int)
    (db : SyncDb) : WASyncResult × SyncDb :=
  if !isReady || !hasClient then (.err "WhatsApp not connected", db)
  else if !hasDb then (.err "Database not initialized", db)
  else
    match getChats with
    | .error e => (.err e, db)
    | .ok chats =>
      match waProcessChats (whatsappSyncFromTime fullSync (getLastSyncTime db "whatsapp") now)
          (whatsappIsIncremental fullSync (getLastSyncTime db "whatsapp") now)
          (chats.take 50) db 0 0 with
      | (.error e, db2) => (.err e, db2)
      | (.ok nt, db2) =>
        (.ok nt.1 nt.2 (whatsappIsIncremental fullSync (getLastSyncTime db "whatsapp") now),
         updateSyncLog db2 "whatsapp" now nt.1)

/-! ## GmailService: categorizer and syncToDatabase -/

/-- The epoch second of the start (UTC) of the calendar day containing `t`,
the time denoted by the `after:YYYY-MM-DD` date string that
`new Date(lastSyncTime * 1000).toISOString().split('T')[0]` produces. -/
def utcDayStart (t : Int) : Int := (t / 86400) * 86400

/-- The Gmail listing query built by `GmailService.syncToDatabase`: the
default 30-day window `in:inbox newer_than:30d`, or, when `fullSync` is
false and a watermark exists, `in:inbox after:<watermark date>`. -/
inductive GmailQuery where
  | newerThan30d
  | afterDay (dayStart : Int)
deriving Repr, DecidableEq

/-- The query construction of `GmailService.syncToDatabase`: note that the
stored watermark is used whenever it exists (and `fullSync` is false),
without any comparison against `monthAgo`. -/
def gmailBuildQuery (fullSync : Bool) (lastSyncTime : Option Int) : GmailQuery :=
  if !fullSync && watermarkTruthy lastSyncTime then .afterDay (utcDayStart (lastSyncTime.getD 0))
  else .newerThan30d

/-- The epoch second a Gmail query pulls from. -/
def gmailQueryFromTime : GmailQuery → Int → Int
  | .newerThan30d, now => now - monthSeconds
  | .afterDay d, _ => d

/-- The effective sync window start of `GmailService.syncToDatabase`. -/
def gmailSyncFromTime (fullSync : Bool) (lastSyncTime : Option Int) (now : Int) : Int :=
  gmailQueryFromTime (gmailBuildQuery fullSync lastSyncTime) now

/-- `isIncremental = !fullSync && lastSyncTime` in `GmailService.syncToDatabase`
(the JavaScript value is the watermark itself; this is its truthiness). -/
def gmailIsIncremental (fullSync : Bool) (lastSyncTime : Option Int) : Bool :=
  !fullSync && watermarkTruthy lastSyncTime

/-- The argument object of `GmailService.categorizeEmail`: the From and
Subject headers default to the empty string via `getHeader`, the snippet
may be absent, the label list defaults to empty. -/
structure EmailInfo where
  fromAddr : String
  subject : String
  snippet : Option String
  labels : List String
deriving Repr, DecidableEq

/-- The action-required keyword list of `categorizeEmail`. -/
def actionKeywords : List String :=
  ["action required", "urgent", "asap", "deadline", "please respond",
   "waiting for", "reminder", "follow up", "approval needed", "review needed"]

/-- The newsletter keyword list of `categorizeEmail`. -/
def newsletterKeywords : List String :=
  ["newsletter", "digest", "weekly", "monthly", "unsubscribe",
   "noreply", "no-reply", "news@", "updates@", "hello@"]

/-- The social domain list of `categorizeEmail`. -/
def socialDomains : List String :=
  ["linkedin", "twitter", "facebook", "instagram", "github", "slack"]

/-- The promotion keyword list of `categorizeEmail`. -/
def promoKeywords : List String :=
  ["sale", "discount", "offer", "deal", "off", "free", "limited time",
   "exclusive", "promo", "coupon"]

/-- `GmailService.categorizeEmail`: Gmail label categories first, then the
keyword heuristics, defaulting to the personal category. -/
def categorizeEmail (email : EmailInfo) : String :=
  let f := lowerStr email.fromAddr
  let subj := lowerStr email.subject
  let labels := email.labels
  if labels.contains "CATEGORY_PROMOTIONS" then "promotions"
  else if labels.contains "CATEGORY_SOCIAL" then "social"
  else if labels.contains "CATEGORY_UPDATES" then "updates"
  else if actionKeywords.any (fun kw => strContains subj kw ||
      (match email.snippet with
       | some s => strContains (lowerStr s) kw
       | none => false)) then "actionRequired"
  else if newsletterKeywords.any (fun kw => strContains f kw || strContains subj kw) then "newsletters"
  else if socialDomains.any (fun d => strContains f d) then "social"
  else if promoKeywords.any (fun kw => strContains subj kw) then "promotions"
  else "personal"

/-- The regex capture `<([^>]+)>`: the content of the first angle-bracket
pair holding at least one character and no closing bracket inside. -/
def angleCapture : List Char → Option (List Char)
  | [] => none
  | c :: rest =>
    if c = '<' then
      let content := rest.takeWhile (fun x => x ≠ '>')
      if content.length > 0 && ((rest.drop content.length).head? == some '>')
      then some content
      else angleCapture rest
    else angleCapture rest

/-- `GmailService.extractEmail`: the address inside angle brackets, or the
raw header when the pattern does not match. -/
def extractEmail (f : String) : String :=
  if f = "" then ""
  else
    match angleCapture f.toList with
    | some content => String.mk content
    | none => f

/-- `GmailService.extractSenderName`: the display-name part before an angle
bracket (trimmed, double quotes removed), else the local part of a
bracketed address, else the local part of the raw header. -/
def extractSenderName (f : String) : String :=
  if f = "" then "Unknown"
  else
    let lead := f.toList.takeWhile (fun c => c ≠ '<')
    if lead.length > 0 then
      String.mk (((lead.dropWhile Char.isWhitespace).reverse.dropWhile
        Char.isWhitespace).reverse.filter (fun c => c ≠ '"'))
    else
      match angleCapture f.toList with
      | some content => String.mk (content.takeWhile (fun c => c ≠ '@'))
      | none => String.mk (f.toList.takeWhile (fun c => c ≠ '@'))

/-- One message as assembled by the detail-fetch loop of
`GmailService.syncToDatabase`: headers already extracted (empty-string
defaults), the timestamp already parsed from the Date header, the body
text already decoded. -/
structure FetchedEmail where
  id : String
  threadId : String
  fromHeader : String
  subject : String
  toHeader : String
  snippet : Option String
  bodyText : String
  timestamp : Int
  labels : List String
deriving Repr, DecidableEq

/-- The record pushed into `emailsToStore` for one fetched message. -/
def toStoredEmail (e : FetchedEmail) : String × StoredEmail :=
  (e.id,
   { thread_id := e.threadId
     from_email := extractEmail e.fromHeader
     from_name := extractSenderName e.fromHeader
     to_email := e.toHeader
     subject := e.subject
     snippet := e.snippet
     body_preview := strTake e.bodyText 500
     timestamp := e.timestamp
     is_unread := e.labels.contains "UNREAD"
     labels := e.labels
     category := categorizeEmail ⟨e.fromHeader, e.subject, e.snippet, e.labels⟩ })

/-- The value of `GmailService.syncToDatabase`. -/
inductive GmailSyncResult where
  | ok (newEmails : Nat) (isIncremental : Bool)
  | err (msg : String)
deriving Repr, DecidableEq

/-- `GmailService.syncToDatabase`.  `fetch` is the combined outcome of the
message listing (with the built query and the mode-scaled `maxResults`)
and the per-message detail requests; any error inside the try block is
caught and returned as a structured error result with the store untouched. -/
def gmailSyncToDatabase (authenticated hasDb : Bool)
    (fetch : GmailQuery → Nat → Except String (List FetchedEmail))
    (fullSync : Bool) (now : Int) (db : SyncDb) : GmailSyncResult × SyncDb :=
  if !authenticated then (.err "Not authenticated", db)
  else if !hasDb then (.err "Database not initialized", db)
  else
    match fetch (gmailBuildQuery fullSync (getLastSyncTime db "gmail"))
        (if gmailIsIncremental fullSync (getLastSyncTime db "gmail") then 100 else 500) with
    | .error e => (.err e, db)
    | .ok messages =>
      let emailsToStore := messages.map toStoredEmail
      let stored :=
        if emailsToStore.length > 0 then bulkUpsert db.gmail_messages emailsToStore
        else db.gmail_messages
      let newEmails := if emailsToStore.length > 0 then emailsToStore.length else 0
      (.ok newEmails (gmailIsIncremental fullSync (getLastSyncTime db "gmail")),
       updateSyncLog { db with gmail_messages := stored } "gmail" now newEmails)

/-! ## NotionService.syncToDatabase -/

/-- One page as returned by the Notion search in `syncToDatabase`, with the
title extraction, parent info and content preview already applied (the
per-page content fetch swallows its own errors in the source).  The ISO
`last_edited_time` string is modelled by its epoch second; comparison of
equal-format ISO strings agrees with comparison of the times. -/
structure FetchedNotionPage where
  id : String
  title : Option String
  parentId : Option String
  parentType : Option String
  url : String
  createdTime : Int
  lastEditedTime : Int
  contentPreview : String
deriving Repr, DecidableEq

/-- `isIncremental = !fullSync && lastSyncTime` in `NotionService.syncToDatabase`. -/
def notionIsIncremental (fullSync : Bool) (lastSyncTime : Option Int) : Bool :=
  !fullSync && watermarkTruthy lastSyncTime

/-- The record pushed into `pagesToStore` for one page. -/
def toNotionRow (p : FetchedNotionPage) : String × NotionPageRow :=
  (p.id,
   { title := jsOrStr p.title "Untitled"
     parent_id := p.parentId
     parent_type := jsOrStr p.parentType "workspace"
     url := p.url
     created_time := p.createdTime
     last_edited_time := p.lastEditedTime
     content_preview := strTake (strTrim p.contentPreview) 500 })

/-- The value of `NotionService.syncToDatabase`. -/
inductive NotionSyncResult where
  | ok (pagesStored : Nat) (isIncremental : Bool)
  | err (msg : String)
deriving Repr, DecidableEq

/-- `NotionService.syncToDatabase`.  `search` is the outcome of the page
search with the mode-scaled page size.  On an incremental sync, pages
edited before the watermark are skipped; on a full sync no cutoff is
applied to the search results. -/
def notionSyncToDatabase (hasClient authenticated hasDb : Bool)
    (search : Nat → Except String (List FetchedNotionPage))
    (fullSync : Bool) (now : Int) (db : SyncDb) : NotionSyncResult × SyncDb :=
  if !hasClient || !authenticated then (.err "Not authenticated", db)
  else if !hasDb then (.err "Database not initialized", db)
  else
    match search (if notionIsIncremental fullSync (getLastSyncTime db "notion") then 50 else 100) with
    | .error e => (.err e, db)
    | .ok results =>
      let isIncremental := notionIsIncremental fullSync (getLastSyncTime db "notion")
      let cutoffTime :=
        if isIncremental && watermarkTruthy (getLastSyncTime db "notion")
        then (getLastSyncTime db "notion").getD 0
        else now - monthSeconds
      let pagesToStore :=
        (results.filter (fun p => !(decide (p.lastEditedTime < cutoffTime) && isIncremental))).map toNotionRow
      let stored :=
        if pagesToStore.length > 0 then bulkUpsert db.notion_pages pagesToStore
        else db.notion_pages
      (.ok pagesToStore.length isIncremental,
       updateSyncLog { db with notion_pages := stored } "notion" now pagesToStore.length)

/-! ## The getSummary authentication gates

Each getSummary implementation first checks its connection state and
returns a structured not-authenticated object without touching the
network; the remainder of the body (network reads, analytics) is
abstracted as the `body` outcome it would otherwise produce. -/

/-- The shape of a getSummary return value: the fail-fast not-authenticated
object, a caught-error object, or a successful payload. -/
inductive SummaryResult (α : Type) where
  | notAuth (msg : String)
  | failed (msg : String) (authenticated : Bool)
  | ok (payload : α)
deriving Repr, DecidableEq

/-- The connection gate of `WhatsAppService.getSummary`. -/
def whatsappGetSummary {α : Type} (isReady hasClient : Bool) (body : SummaryResult α) :
    SummaryResult α :=
  if !isReady || !hasClient then .notAuth "WhatsApp not connected" else body

/-- The authentication gate of `GmailService.getSummary`. -/
def gmailGetSummary {α : Type} (authenticated : Bool) (body : SummaryResult α) :
    SummaryResult α :=
  if !authenticated then .notAuth "Not authenticated" else body

/-- The authentication gate of `NotionService.getSummary`. -/
def notionGetSummary {α : Type} (hasClient authenticated : Bool) (body : SummaryResult α) :
    SummaryResult α :=
  if !hasClient || !authenticated then .notAuth "Not authenticated" else body

/-! ## The summary cache (main.js) -/

/-- `CACHE_MAX_AGE = 2.5 * 60 * 60 * 1000` milliseconds. -/
def CACHE_MAX_AGE : Int := 9000000

/-- An entry stored under a cache key: the payload and its store time (ms). -/
structure CacheEntry (α : Type) where
  data : α
  timestamp : Int
deriving Repr, DecidableEq

/-- The electron-store keyspace holding the cache entries. -/
abbrev CacheStore (α : Type) := List (String × CacheEntry α)

/-- The key string `cache.type.summaryType`. -/
def cacheKey (ty summaryType : String) : String :=
  "cache." ++ ty ++ "." ++ summaryType

/-- The object `getCachedSummary` returns on a hit. -/
structure CachedView (α : Type) where
  data : α
  timestamp : Int
  age : Int
  isStale : Bool
deriving Repr, DecidableEq

/-- `getCachedSummary` in main.js: null on a miss, otherwise the payload
with its age and the staleness predicate `age > CACHE_MAX_AGE`. -/
def getCachedSummary {α : Type} (store : CacheStore α) (now : Int) (ty summaryType : String) :
    Option (CachedView α) :=
  match lookupRow store (cacheKey ty summaryType) with
  | none => none
  | some c => some
      { data := c.data
        timestamp := c.timestamp
        age := now - c.timestamp
        isStale := decide (now - c.timestamp > CACHE_MAX_AGE) }

/-- `setCachedSummary` in main.js: store the payload with the current time. -/
def setCachedSummary {α : Type} (store : CacheStore α) (now : Int) (ty summaryType : String)
    (data : α) : CacheStore α :=
  upsertRow store (cacheKey ty summaryType) { data := data, timestamp := now }

/-! ## The get-today-summary handler (main.js) -/

/-- The response sent back by the get-today-summary handler. -/
inductive TodayResponse (α : Type) where
  | notConfigured
  | cacheHit (summary : α) (isStale : Bool) (cacheAge : Int)
  | fresh (summary : α)
  | failed (msg : String)
deriving Repr, DecidableEq

/-- The observable outcome of one handler invocation: the response sent to
the renderer, the cache state once any triggered refresh has completed
(the response never waits for it), and whether a background refresh was
launched without being awaited. -/
structure TodayOutcome (α : Type) where
  response : TodayResponse α
  cacheAfter : CacheStore α
  backgroundRefresh : Bool
deriving Repr, DecidableEq

/-- `refreshTodaySummary` in main.js: fetch provider data and summarize
(abstracted as `result`); on success write the cache and return the fresh
summary, on any caught error return a structured error without writing. -/
def refreshTodaySummary {α : Type} (store : CacheStore α) (now : Int) (ty : String)
    (result : Except String α) : TodayResponse α × CacheStore α :=
  match result with
  | .error e => (.failed e, store)
  | .ok s => (.fresh s, setCachedSummary store now ty "today" s)

/-- The get-today-summary IPC handler: the configuration gate, then the
stale-while-revalidate protocol on the `(type, today)` cache key.  A fresh
hit answers from the cache with no refresh; a stale hit answers with the
old payload and launches an unawaited refresh; a miss or a forced refresh
runs the refresh synchronously. -/
def getTodaySummaryHandler {α : Type} (configured : Bool) (store : CacheStore α) (now : Int)
    (ty : String) (forceRefresh : Bool) (refreshResult : Except String α) : TodayOutcome α :=
  if !configured then ⟨.notConfigured, store, false⟩
  else
    match getCachedSummary store now ty "today" with
    | some cached =>
      if !cached.isStale && !forceRefresh then
        ⟨.cacheHit cached.data false cached.age, store, false⟩
      else if !forceRefresh then
        ⟨.cacheHit cached.data true cached.age,
         (refreshTodaySummary store now ty refreshResult).2, true⟩
      else
        ⟨(refreshTodaySummary store now ty refreshResult).1,
         (refreshTodaySummary store now ty refreshResult).2, false⟩
    | none =>
      ⟨(refreshTodaySummary store now ty refreshResult).1,
       (refreshTodaySummary store now ty refreshResult).2, false⟩

/-! ## The get-all-summaries aggregator (main.js) -/

/-- One settled slot of the `Promise.allSettled` fan-out: the fulfilled
value, or the structured `{error: reason.message}` object built for a
rejected provider (whose reason may lack a message). -/
inductive Settled (α : Type) where
  | value (v : α)
  | failedWith (message : Option String)
deriving Repr, DecidableEq

/-- How the aggregator turns one settled promise into its response slot. -/
def settle {α : Type} : Except (Option String) α → Settled α
  | .ok v => .value v
  | .error m => .failedWith m

/-- The response object of the get-all-summaries handler. -/
structure AllSummaries (α β γ : Type) where
  gmail : Settled α
  whatsapp : Settled β
  notion : Settled γ
deriving Repr, DecidableEq

/-- The get-all-summaries IPC handler: an all-settled fan-out over the
three providers, each slot settled independently. -/
def getAllSummaries {α β γ : Type} (g : Except (Option String) α)
    (w : Except (Option String) β) (n : Except (Option String) γ) : AllSummaries α β γ :=
  { gmail := settle g, whatsapp := settle w, notion := settle n }

/-! ## Store queries with time filters (DatabaseService) -/

/-- `DatabaseService.getWhatsAppMessages(timeFilter)`: the stored rows
whose timestamp is at or after the cutoff of the filter (today = local
midnight, passed in as `todayTimestamp`; week = now-7d; month = now-30d;
anything else unfiltered).  The `ORDER BY timestamp DESC` clause only
reorders rows and is not modelled; the claims concern membership. -/
def getWhatsAppMessages (db : SyncDb) (now todayTimestamp : Int) (timeFilter : String) :
    List StoredWAMsg :=
  let rows := db.whatsapp_messages.map (fun r => r.2)
  if timeFilter = "today" then rows.filter (fun m => decide (m.timestamp ≥ todayTimestamp))
  else if timeFilter = "week" then rows.filter (fun m => decide (m.timestamp ≥ now - weekSeconds))
  else if timeFilter = "month" then rows.filter (fun m => decide (m.timestamp ≥ now - monthSeconds))
  else rows

/-- `DatabaseService.getGmailMessages(timeFilter)`: same cutoffs on the
gmail_messages table. -/
def getGmailMessages (db : SyncDb) (now todayTimestamp : Int) (timeFilter : String) :
    List StoredEmail :=
  let rows := db.gmail_messages.map (fun r => r.2)
  if timeFilter = "today" then rows.filter (fun m => decide (m.timestamp ≥ todayTimestamp))
  else if timeFilter = "week" then rows.filter (fun m => decide (m.timestamp ≥ now - weekSeconds))
  else if timeFilter = "month" then rows.filter (fun m => decide (m.timestamp ≥ now - monthSeconds))
  else rows

/-- `DatabaseService.getNotionPages(timeFilter)`: only the week and month
filters build a WHERE clause (on last_edited_time); every other filter
value, including today, returns all rows. -/
def getNotionPages (db : SyncDb) (now : Int) (timeFilter : String) : List NotionPageRow :=
  let rows := db.notion_pages.map (fun r => r.2)
  if timeFilter = "week" then rows.filter (fun p => decide (p.last_edited_time ≥ now - weekSeconds))
  else if timeFilter = "month" then rows.filter (fun p => decide (p.last_edited_time ≥ now - monthSeconds))
  else rows

/-- The per-chat message filter of `WhatsAppService.getSummary`: messages at
or after the cutoff of the filter, everything for any other filter value. -/
def whatsappSummaryFilter (messages : List RawWAMsg) (timeFilter : String)
    (now todayTimestamp : Int) : List RawWAMsg :=
  if timeFilter = "today" then messages.filter (fun m => decide (m.timestamp ≥ todayTimestamp))
  else if timeFilter = "week" then messages.filter (fun m => decide (m.timestamp ≥ now - weekSeconds))
  else if timeFilter = "month" then messages.filter (fun m => decide (m.timestamp ≥ now - monthSeconds))
  else messages

/-! ## The category buckets of GmailService.getSummary -/

/-- The `categorizedEmails` object of `GmailService.getSummary`. -/
structure CategorizedEmails where
  actionRequired : List EmailInfo
  newsletters : List EmailInfo
  social : List EmailInfo
  promotions : List EmailInfo
  updates : List EmailInfo
  personal : List EmailInfo
deriving Repr, DecidableEq

/-- The initial empty buckets. -/
def emptyCategorized : CategorizedEmails := ⟨[], [], [], [], [], []⟩

/-- The push of one analyzed email into its category bucket, guarded by
`if (categorizedEmails[category])` as in the source. -/
def pushCategory (c : CategorizedEmails) (e : EmailInfo) : CategorizedEmails :=
  let cat := categorizeEmail e
  if cat = "actionRequired" then { c with actionRequired := c.actionRequired ++ [e] }
  else if cat = "newsletters" then { c with newsletters := c.newsletters ++ [e] }
  else if cat = "social" then { c with social := c.social ++ [e] }
  else if cat = "promotions" then { c with promotions := c.promotions ++ [e] }
  else if cat = "updates" then { c with updates := c.updates ++ [e] }
  else if cat = "personal" then { c with personal := c.personal ++ [e] }
  else c

/-- The categorization loop of `GmailService.getSummary` over the analyzed
emails. -/
def categorizeAll (emails : List EmailInfo) : CategorizedEmails :=
  emails.foldl pushCategory emptyCategorized

/-- The total number of bucketed emails. -/
def totalBucketed (c : CategorizedEmails) : Nat :=
  c.actionRequired.length + c.newsletters.length + c.social.length +
    c.promotions.length + c.updates.length + c.personal.length

/-! ## Helper lemmas about the store -/

theorem lookupRow_upsert_self {ρ : Type} (t : Table ρ) (id : String) (row : ρ) :
    lookupRow (upsertRow t id row) id = some row := by
  simp [lookupRow, upsertRow, List.find?]

theorem filter_ne_self {ρ : Type} (t : Table ρ) (id : String) :
    (t.filter (fun p => p.1 != id)).filter (fun p => p.1 == id) = [] := by
  induction t with
  | nil => rfl
  | cons a l ih =>
    cases h : (a.1 == id) with
    | true => simp [List.filter_cons, bne, h, ih]
    | false => simp [List.filter_cons, bne, h, ih]

theorem filter_upsertRow {ρ : Type} (t : Table ρ) (id : String) (row : ρ) :
    (upsertRow t id row).filter (fun p => p.1 == id) = [(id, row)] := by
  simp [upsertRow, List.filter_cons, filter_ne_self]

theorem getLastSyncTime_updateSyncLog (db : SyncDb) (src : String) (now k : Int) :
    getLastSyncTime (updateSyncLog db src now k) src = some now := by
  simp [getLastSyncTime, updateSyncLog, lookupRow_upsert_self]

/-! ## Helper lemmas about the sync plans -/

theorem whatsappSyncFromTime_ge (fs : Bool) (lst : Option Int) (now : Int) :
    now - monthSeconds ≤ whatsappSyncFromTime fs lst now := by
  unfold whatsappSyncFromTime
  split
  · next hcond =>
    simp only [Bool.and_eq_true, decide_eq_true_eq] at hcond
    omega
  · omega

theorem whatsappPlan_recent (now t : Int) (h0 : t ≠ 0) (hgt : now - monthSeconds < t) :
    whatsappSyncFromTime false (some t) now = t
    ∧ whatsappIsIncremental false (some t) now = true := by
  have hc : (!false && watermarkTruthy (some t)
      && decide (Option.getD (some t) 0 > now - monthSeconds)) = true := by
    simp [watermarkTruthy, h0, hgt]
  have hft : whatsappSyncFromTime false (some t) now = t := by
    unfold whatsappSyncFromTime
    rw [if_pos hc]
    rfl
  refine ⟨hft, ?_⟩
  unfold whatsappIsIncremental
  rw [hft]
  simpa using hgt

theorem whatsappPlan_old (now t : Int) (hle : t ≤ now - monthSeconds) :
    whatsappSyncFromTime false (some t) now = now - monthSeconds
    ∧ whatsappIsIncremental false (some t) now = false := by
  have hft : whatsappSyncFromTime false (some t) now = now - monthSeconds := by
    unfold whatsappSyncFromTime
    split
    · next hcond =>
      simp only [Bool.and_eq_true, decide_eq_true_eq, Option.getD_some] at hcond
      omega
    · rfl
  refine ⟨hft, ?_⟩
  unfold whatsappIsIncremental
  rw [hft]
  simp

theorem utcDayStart_le (t : Int) : utcDayStart t ≤ t := by
  unfold utcDayStart
  have h := Int.ediv_add_emod t 86400
  have h2 := Int.emod_nonneg t (by norm_num : (86400 : Int) ≠ 0)
  omega

theorem gmailPlan_full (lst : Option Int) (now : Int) :
    gmailSyncFromTime true lst now = now - monthSeconds := rfl

theorem gmailPlan_none (fs : Bool) (now : Int) :
    gmailSyncFromTime fs none now = now - monthSeconds := by
  cases fs <;> rfl

theorem gmailPlan_incremental (t now : Int) (h0 : t ≠ 0) :
    gmailSyncFromTime false (some t) now = utcDayStart t
    ∧ gmailIsIncremental false (some t) = true := by
  constructor
  · unfold gmailSyncFromTime gmailBuildQuery
    simp [watermarkTruthy, h0, gmailQueryFromTime]
  · unfold gmailIsIncremental
    simp [watermarkTruthy, h0]

/-! ## Helper lemmas about the sync state machines -/

theorem waProcessChats_syncLog (sft : Int) (inc : Bool) (chats : List ChatFetch)
    (db : SyncDb) (total newM : Nat) :
    ((waProcessChats sft inc chats db total newM).2).sync_log = db.sync_log := by
  induction chats generalizing db total newM with
  | nil => rfl
  | cons chat rest ih =>
    unfold waProcessChats
    cases hf : chat.fetched (if inc then 100 else 500) with
    | error e => simp [hf]
    | ok messages =>
      simp only [hf]
      rw [ih]

theorem whatsappSync_ok {r c d : Bool} {gc : Except String (List ChatFetch)} {fs : Bool}
    {now : Int} {db : SyncDb} {n t : Nat} {inc : Bool} {db2 : SyncDb}
    (h : whatsappSyncToDatabase r c d gc fs now db = (.ok n t inc, db2)) :
    inc = whatsappIsIncremental fs (getLastSyncTime db "whatsapp") now
    ∧ getLastSyncTime db2 "whatsapp" = some now := by
  unfold whatsappSyncToDatabase at h
  split at h
  · simp at h
  · split at h
    · simp at h
    · split at h
      · simp at h
      · split at h
        · simp at h
        · simp only [Prod.mk.injEq, WASyncResult.ok.injEq] at h
          obtain ⟨⟨h1, h2, h3⟩, h4⟩ := h
          subst h3
          subst h4
          exact ⟨rfl, getLastSyncTime_updateSyncLog ..⟩

theorem whatsappSync_err {r c d : Bool} {gc : Except String (List ChatFetch)} {fs : Bool}
    {now : Int} {db : SyncDb} {e : String} {db2 : SyncDb}
    (h : whatsappSyncToDatabase r c d gc fs now db = (.err e, db2)) :
    db2.sync_log = db.sync_log := by
  unfold whatsappSyncToDatabase at h
  split at h
  · simp only [Prod.mk.injEq] at h
    rw [← h.2]
  · split at h
    · simp only [Prod.mk.injEq] at h
      rw [← h.2]
    · split at h
      · simp only [Prod.mk.injEq] at h
        rw [← h.2]
      · rename_i chats
        split at h
        · rename_i e2 db2x heq
          simp only [Prod.mk.injEq] at h
          rw [← h.2]
          have hs := waProcessChats_syncLog
            (whatsappSyncFromTime fs (getLastSyncTime db "whatsapp") now)
            (whatsappIsIncremental fs (getLastSyncTime db "whatsapp") now)
            (chats.take 50) db 0 0
          rw [heq] at hs
          exact hs
        · simp at h

theorem gmailSync_ok {a d : Bool} {f : GmailQuery → Nat → Except String (List FetchedEmail)}
    {fs : Bool} {now : Int} {db : SyncDb} {n : Nat} {inc : Bool} {db2 : SyncDb}
    (h : gmailSyncToDatabase a d f fs now db = (.ok n inc, db2)) :
    inc = gmailIsIncremental fs (getLastSyncTime db "gmail")
    ∧ getLastSyncTime db2 "gmail" = some now := by
  unfold gmailSyncToDatabase at h
  split at h
  · simp at h
  · split at h
    · simp at h
    · split at h
      · simp at h
      · simp only [Prod.mk.injEq, GmailSyncResult.ok.injEq] at h
        obtain ⟨⟨h1, h2⟩, h3⟩ := h
        subst h2
        subst h3
        exact ⟨rfl, getLastSyncTime_updateSyncLog ..⟩

theorem gmailSync_err {a d : Bool} {f : GmailQuery → Nat → Except String (List FetchedEmail)}
    {fs : Bool} {now : Int} {db : SyncDb} {e : String} {db2 : SyncDb}
    (h : gmailSyncToDatabase a d f fs now db = (.err e, db2)) :
    db2 = db := by
  unfold gmailSyncToDatabase at h
  split at h
  · simp only [Prod.mk.injEq] at h
    exact h.2.symm
  · split at h
    · simp only [Prod.mk.injEq] at h
      exact h.2.symm
    · split at h
      · simp only [Prod.mk.injEq] at h
        exact h.2.symm
      · simp at h

theorem notionSync_ok {c a d : Bool} {s : Nat → Except String (List FetchedNotionPage)}
    {fs : Bool} {now : Int} {db : SyncDb} {n : Nat} {inc : Bool} {db2 : SyncDb}
    (h : notionSyncToDatabase c a d s fs now db = (.ok n inc, db2)) :
    inc = notionIsIncremental fs (getLastSyncTime db "notion")
    ∧ getLastSyncTime db2 "notion" = some now := by
  unfold notionSyncToDatabase at h
  split at h
  · simp at h
  · split at h
    · simp at h
    · split at h
      · simp at h
      · simp only [Prod.mk.injEq, NotionSyncResult.ok.injEq] at h
        obtain ⟨⟨h1, h2⟩, h3⟩ := h
        subst h2
        subst h3
        exact ⟨rfl, getLastSyncTime_updateSyncLog ..⟩

theorem notionSync_err {c a d : Bool} {s : Nat → Except String (List FetchedNotionPage)}
    {fs : Bool} {now : Int} {db : SyncDb} {e : String} {db2 : SyncDb}
    (h : notionSyncToDatabase c a d s fs now db = (.err e, db2)) :
    db2 = db := by
  unfold notionSyncToDatabase at h
  split at h
  · simp only [Prod.mk.injEq] at h
    exact h.2.symm
  · split at h
    · simp only [Prod.mk.injEq] at h
      exact h.2.symm
    · split at h
      · simp only [Prod.mk.injEq] at h
        exact h.2.symm
      · simp at h

/-! ## Helper lemmas about the categorizer -/

theorem categorizeEmail_cases (e : EmailInfo) :
    categorizeEmail e = "promotions" ∨ categorizeEmail e = "social"
    ∨ categorizeEmail e = "updates" ∨ categorizeEmail e = "actionRequired"
    ∨ categorizeEmail e = "newsletters" ∨ categorizeEmail e = "personal" := by
  simp only [categorizeEmail]
  repeat' split
  all_goals simp

theorem totalBucketed_push (c : CategorizedEmails) (e : EmailInfo) :
    totalBucketed (pushCategory c e) = totalBucketed c + 1 := by
  rcases categorizeEmail_cases e with h | h | h | h | h | h <;>
    simp [pushCategory, h, totalBucketed] <;> omega

theorem totalBucketed_foldl (emails : List EmailInfo) (c : CategorizedEmails) :
    totalBucketed (emails.foldl pushCategory c) = totalBucketed c + emails.length := by
  induction emails generalizing c with
  | nil => simp
  | cons e rest ih =>
    simp only [List.foldl_cons, List.length_cons, ih, totalBucketed_push]
    omega

/-- Reading the watermark only depends on the sync_log table. -/
theorem getLastSyncTime_congr {db1 db2 : SyncDb} (h : db1.sync_log = db2.sync_log)
    (src : String) : getLastSyncTime db1 src = getLastSyncTime db2 src := by
  unfold getLastSyncTime
  rw [h]

/-! ## Sample data used by the witnesses -/

/-- A connected chat whose fetch succeeds with one message. -/
def chatSample : ChatFetch :=
  { id := "c1", name := some "Chat", idUser := none, isGroup := false,
    participantCount := 0, timestamp := some 50,
    fetched := fun _ => .ok [⟨some "m1", none, "77@c.us", some "hey", 8600000, false, false⟩] }

/-- A chat whose message fetch fails. -/
def chatFailing : ChatFetch :=
  { id := "c2", name := some "Bad", idUser := none, isGroup := false,
    participantCount := 0, timestamp := none, fetched := fun _ => .error "boom" }

/-- An empty database. -/
def emptyDb : SyncDb := ⟨[], [], [], [], []⟩

/-- A database carrying a WhatsApp watermark. -/
def dbWatermarked : SyncDb := ⟨[], [], [], [], [("whatsapp", ⟨1000, 2⟩)]⟩

/-- A cache store holding one entry written at time 0. -/
def cacheStoreSample : CacheStore Nat := [(cacheKey "gmail" "today", ⟨42, 0⟩)]

/-- A Notion page last edited long before any plausible local midnight. -/
def pageOld : NotionPageRow := ⟨"Old", none, "workspace", "u", 0, 1000, ""⟩

/-- A database holding only that old Notion page. -/
def dbNotionSample : SyncDb := ⟨[], [], [], [("p1", pageOld)], []⟩

/-! ## The claims -/

/-- C1 (counterexample): the claim says the sync window start of every
syncToDatabase is never earlier than now - 30 days for every stored
watermark.  For the Gmail service this fails: with a watermark 45 days
old (now = 8640000, watermark = 4752000) and fullSync = false, the query
is built from the watermark date with no 30-day clamp, so the sync pulls
from before now - 30 days. -/
theorem c1_gmail_below_window :
    gmailSyncFromTime false (some 4752000) 8640000 < 8640000 - monthSeconds := by decide

/-- C1 (amended): the 30-day floor holds for the WhatsApp sync for every
watermark and both sync modes; for the Gmail sync it holds only when
fullSync is true or no (nonzero) watermark is stored — with fullSync
false and a stored watermark the Gmail query starts at the UTC day start
of the watermark whatever its age, which falls strictly below now - 30
days whenever the watermark is more than 30 days old. -/
theorem c1_bounded_window_amended (fullSync : Bool) (lst : Option Int) (now t : Int)
    (ht : lst = some t) (h0 : t ≠ 0) :
    now - monthSeconds ≤ whatsappSyncFromTime fullSync lst now
    ∧ gmailSyncFromTime true lst now = now - monthSeconds
    ∧ gmailSyncFromTime fullSync none now = now - monthSeconds
    ∧ gmailSyncFromTime false lst now = utcDayStart t
    ∧ (t < now - monthSeconds → gmailSyncFromTime false lst now < now - monthSeconds) := by
  subst ht
  refine ⟨whatsappSyncFromTime_ge .., gmailPlan_full .., gmailPlan_none ..,
    (gmailPlan_incremental t now h0).1, ?_⟩
  intro hlt
  have hd := utcDayStart_le t
  rw [(gmailPlan_incremental t now h0).1]
  omega

/-- C1 (witness): the amended claim at now = 8640000 with a watermark 45
days old. -/
theorem c1_bounded_window_witness :
    8640000 - monthSeconds ≤ whatsappSyncFromTime false (some 4752000) 8640000
    ∧ gmailSyncFromTime false (some 4752000) 8640000 < 8640000 - monthSeconds := by
  obtain ⟨h1, h2, h3, h4, h5⟩ :=
    c1_bounded_window_amended false (some 4752000) 8640000 4752000 rfl (by decide)
  exact ⟨h1, h5 (by decide)⟩

/-- C2 (counterexample): the claimed 45-day scenario (syncFromTime =
now - 30d and isIncremental = false) fails for the Gmail sync: with
now = 8640000 and a watermark of 4752000 (45 days old), the Gmail window
starts at the watermark day, not at now - 30d, and isIncremental is true
because the Gmail flag is mere watermark existence. -/
theorem c2_gmail_scenario_fails :
    ¬(gmailSyncFromTime false (some 4752000) 8640000 = 8640000 - monthSeconds
      ∧ gmailIsIncremental false (some 4752000) = false) := by decide

/-- C2 (amended): for the WhatsApp sync all three claimed scenarios hold
and isIncremental is exactly syncFromTime > now - 30d.  For the Gmail
sync the no-watermark/fullSync scenario holds, but with a 45-day-old
watermark the window starts at the UTC day start of the watermark and
isIncremental is true, because the Gmail flag is !fullSync together with
watermark existence rather than window membership. -/
theorem c2_scenarios_amended (now w5 w45 : Int)
    (h5 : w5 = now - 5 * 86400) (h45 : w45 = now - 45 * 86400)
    (h5nz : w5 ≠ 0) (h45nz : w45 ≠ 0) :
    (whatsappSyncFromTime false (some w5) now = w5
      ∧ whatsappIsIncremental false (some w5) now = true)
    ∧ (whatsappSyncFromTime false (some w45) now = now - monthSeconds
      ∧ whatsappIsIncremental false (some w45) now = false)
    ∧ (whatsappSyncFromTime true none now = now - monthSeconds
      ∧ whatsappIsIncremental true none now = false)
    ∧ (∀ fs lst, whatsappIsIncremental fs lst now
        = decide (whatsappSyncFromTime fs lst now > now - monthSeconds))
    ∧ (gmailSyncFromTime false (some w45) now = utcDayStart w45
      ∧ gmailIsIncremental false (some w45) = true)
    ∧ (gmailSyncFromTime true none now = now - monthSeconds
      ∧ gmailIsIncremental true none = false) := by
  refine ⟨?_, ?_, ⟨rfl, ?_⟩, fun fs lst => rfl, ?_, ⟨gmailPlan_full .., rfl⟩⟩
  · exact whatsappPlan_recent now w5 h5nz (by subst h5; unfold monthSeconds; omega)
  · exact whatsappPlan_old now w45 (by subst h45; unfold monthSeconds; omega)
  · unfold whatsappIsIncremental
    rw [show whatsappSyncFromTime true none now = now - monthSeconds from rfl]
    simp
  · exact gmailPlan_incremental w45 now h45nz

/-- C2 (witness): the amended scenarios at now = 8640000 (watermarks
8208000 = 5 days old and 4752000 = 45 days old). -/
theorem c2_scenarios_witness :
    (whatsappSyncFromTime false (some 8208000) 8640000 = 8208000
      ∧ whatsappIsIncremental false (some 8208000) 8640000 = true)
    ∧ (whatsappSyncFromTime false (some 4752000) 8640000 = 8640000 - monthSeconds
      ∧ whatsappIsIncremental false (some 4752000) 8640000 = false)
    ∧ gmailIsIncremental false (some 4752000) = true := by
  obtain ⟨h1, h2, h3, h4, h5, h6⟩ :=
    c2_scenarios_amended 8640000 8208000 4752000 rfl rfl (by decide) (by decide)
  exact ⟨h1, h2, h5.2⟩

/-- C3: every successful syncToDatabase run of each provider sets the
watermark of its source to the sync wall-clock time (even with zero new
records); hence a second fullSync=false call right after a successful
one is incremental for each provider, and the stored watermark never
decreases across sync calls (error runs leave it unchanged, successful
runs move it to the no-earlier current time). -/
theorem c3_watermark_invariants :
    (∀ r c d gc fs now db n t inc db2,
        whatsappSyncToDatabase r c d gc fs now db = (.ok n t inc, db2) →
        getLastSyncTime db2 "whatsapp" = some now)
    ∧ (∀ a d f fs now db n inc db2,
        gmailSyncToDatabase a d f fs now db = (.ok n inc, db2) →
        getLastSyncTime db2 "gmail" = some now)
    ∧ (∀ c a d s fs now db n inc db2,
        notionSyncToDatabase c a d s fs now db = (.ok n inc, db2) →
        getLastSyncTime db2 "notion" = some now)
    ∧ (∀ r c d gc fs now db n t inc db2 r2 c2 d2 gc2 now2 n2 t2 inc2 db3,
        whatsappSyncToDatabase r c d gc fs now db = (.ok n t inc, db2) →
        now ≠ 0 → now2 - monthSeconds < now →
        whatsappSyncToDatabase r2 c2 d2 gc2 false now2 db2 = (.ok n2 t2 inc2, db3) →
        inc2 = true)
    ∧ (∀ a d f fs now db n inc db2 a2 d2 f2 now2 n2 inc2 db3,
        gmailSyncToDatabase a d f fs now db = (.ok n inc, db2) →
        now ≠ 0 →
        gmailSyncToDatabase a2 d2 f2 false now2 db2 = (.ok n2 inc2, db3) →
        inc2 = true)
    ∧ (∀ c a d s fs now db n inc db2 c2 a2 d2 s2 now2 n2 inc2 db3,
        notionSyncToDatabase c a d s fs now db = (.ok n inc, db2) →
        now ≠ 0 →
        notionSyncToDatabase c2 a2 d2 s2 false now2 db2 = (.ok n2 inc2, db3) →
        inc2 = true)
    ∧ (∀ r c d gc fs now db w,
        getLastSyncTime db "whatsapp" = some w → w ≤ now →
        ∃ w2, getLastSyncTime (whatsappSyncToDatabase r c d gc fs now db).2 "whatsapp" = some w2
          ∧ w ≤ w2)
    ∧ (∀ a d f fs now db w,
        getLastSyncTime db "gmail" = some w → w ≤ now →
        ∃ w2, getLastSyncTime (gmailSyncToDatabase a d f fs now db).2 "gmail" = some w2
          ∧ w ≤ w2)
    ∧ (∀ c a d s fs now db w,
        getLastSyncTime db "notion" = some w → w ≤ now →
        ∃ w2, getLastSyncTime (notionSyncToDatabase c a d s fs now db).2 "notion" = some w2
          ∧ w ≤ w2) := by
  refine ⟨?_, ?_, ?_, ?_, ?_, ?_, ?_, ?_, ?_⟩
  · intro r c d gc fs now db n t inc db2 h
    exact (whatsappSync_ok h).2
  · intro a d f fs now db n inc db2 h
    exact (gmailSync_ok h).2
  · intro c a d s fs now db n inc db2 h
    exact (notionSync_ok h).2
  · intro r c d gc fs now db n t inc db2 r2 c2 d2 gc2 now2 n2 t2 inc2 db3 h1 h0 hlt h2
    have hw := (whatsappSync_ok h1).2
    have hi := (whatsappSync_ok h2).1
    rw [hw] at hi
    rw [hi]
    exact (whatsappPlan_recent now2 now h0 hlt).2
  · intro a d f fs now db n inc db2 a2 d2 f2 now2 n2 inc2 db3 h1 h0 h2
    have hw := (gmailSync_ok h1).2
    have hi := (gmailSync_ok h2).1
    rw [hw] at hi
    rw [hi]
    simp [gmailIsIncremental, watermarkTruthy, h0]
  · intro c a d s fs now db n inc db2 c2 a2 d2 s2 now2 n2 inc2 db3 h1 h0 h2
    have hw := (notionSync_ok h1).2
    have hi := (notionSync_ok h2).1
    rw [hw] at hi
    rw [hi]
    simp [notionIsIncremental, watermarkTruthy, h0]
  · intro r c d gc fs now db w hw hle
    rcases hres : whatsappSyncToDatabase r c d gc fs now db with ⟨res, db2⟩
    cases res with
    | ok n t inc =>
      refine ⟨now, ?_, hle⟩
      exact (whatsappSync_ok hres).2
    | err e =>
      refine ⟨w, ?_, le_refl w⟩
      show getLastSyncTime db2 "whatsapp" = some w
      rw [getLastSyncTime_congr (whatsappSync_err hres) "whatsapp"]
      exact hw
  · intro a d f fs now db w hw hle
    rcases hres : gmailSyncToDatabase a d f fs now db with ⟨res, db2⟩
    cases res with
    | ok n inc =>
      refine ⟨now, ?_, hle⟩
      exact (gmailSync_ok hres).2
    | err e =>
      refine ⟨w, ?_, le_refl w⟩
      show getLastSyncTime db2 "gmail" = some w
      rw [gmailSync_err hres]
      exact hw
  · intro c a d s fs now db w hw hle
    rcases hres : notionSyncToDatabase c a d s fs now db with ⟨res, db2⟩
    cases res with
    | ok n inc =>
      refine ⟨now, ?_, hle⟩
      exact (notionSync_ok hres).2
    | err e =>
      refine ⟨w, ?_, le_refl w⟩
      show getLastSyncTime db2 "notion" = some w
      rw [notionSync_err hres]
      exact hw

/-- C3 (witness): a concrete successful sync at time 8640000 on an empty
database sets the watermark to 8640000, and the immediately following
fullSync=false sync (no new data) reports isIncremental=true. -/
theorem c3_watermark_witness :
    whatsappSyncToDatabase true true true (Except.ok [chatSample]) false 8640000 emptyDb
      = (WASyncResult.ok 1 1 false,
         (whatsappSyncToDatabase true true true (Except.ok [chatSample]) false 8640000 emptyDb).2)
    ∧ getLastSyncTime
        (whatsappSyncToDatabase true true true (Except.ok [chatSample]) false 8640000 emptyDb).2
        "whatsapp" = some 8640000
    ∧ (whatsappSyncToDatabase true true true (Except.ok [chatSample]) false 8650000
        (whatsappSyncToDatabase true true true (Except.ok [chatSample]) false 8640000 emptyDb).2).1
      = WASyncResult.ok 0 1 true := by
  obtain ⟨h1, h2, h3, h4, h5, h6, h7, h8, h9⟩ := c3_watermark_invariants
  refine ⟨rfl, h1 true true true (Except.ok [chatSample]) false 8640000 emptyDb 1 1 false _ rfl, ?_⟩
  have := h4 true true true (Except.ok [chatSample]) false 8640000 emptyDb 1 1 false _
    true true true (Except.ok [chatSample]) 8650000 0 1 true _ rfl (by decide) (by decide) rfl
  decide

/-- C4: for each provider, syncToDatabase and getSummary fail fast with a
structured not-authenticated object when the connection gate is closed;
an error anywhere in the fetch phase of syncToDatabase is caught and
returned as a structured error object, and the watermark of the source
is left unchanged by any error run (for Gmail and Notion the store is
left entirely unchanged; for WhatsApp, rows already written before a
per-chat fetch error remain but the sync log is untouched). -/
theorem c4_structured_failures :
    (∀ c d gc fs now db, whatsappSyncToDatabase false c d gc fs now db
        = (.err "WhatsApp not connected", db))
    ∧ (∀ r d gc fs now db, whatsappSyncToDatabase r false d gc fs now db
        = (.err "WhatsApp not connected", db))
    ∧ (∀ d f fs now db, gmailSyncToDatabase false d f fs now db = (.err "Not authenticated", db))
    ∧ (∀ a d s fs now db, notionSyncToDatabase false a d s fs now db
        = (.err "Not authenticated", db))
    ∧ (∀ c d s fs now db, notionSyncToDatabase c false d s fs now db
        = (.err "Not authenticated", db))
    ∧ (∀ (α : Type) (c : Bool) (body : SummaryResult α),
        whatsappGetSummary false c body = .notAuth "WhatsApp not connected")
    ∧ (∀ (α : Type) (r : Bool) (body : SummaryResult α),
        whatsappGetSummary r false body = .notAuth "WhatsApp not connected")
    ∧ (∀ (α : Type) (body : SummaryResult α),
        gmailGetSummary false body = .notAuth "Not authenticated")
    ∧ (∀ (α : Type) (a : Bool) (body : SummaryResult α),
        notionGetSummary false a body = .notAuth "Not authenticated")
    ∧ (∀ (α : Type) (c : Bool) (body : SummaryResult α),
        notionGetSummary c false body = .notAuth "Not authenticated")
    ∧ (∀ e fs now db, whatsappSyncToDatabase true true true (.error e) fs now db = (.err e, db))
    ∧ (∀ e fs now db,
        gmailSyncToDatabase true true (fun _ _ => .error e) fs now db = (.err e, db))
    ∧ (∀ e fs now db,
        notionSyncToDatabase true true true (fun _ => .error e) fs now db = (.err e, db))
    ∧ (∀ r c d gc fs now db e db2, whatsappSyncToDatabase r c d gc fs now db = (.err e, db2) →
        getLastSyncTime db2 "whatsapp" = getLastSyncTime db "whatsapp")
    ∧ (∀ a d f fs now db e db2, gmailSyncToDatabase a d f fs now db = (.err e, db2) → db2 = db)
    ∧ (∀ c a d s fs now db e db2, notionSyncToDatabase c a d s fs now db = (.err e, db2) →
        db2 = db) := by
  refine ⟨fun c d gc fs now db => rfl, ?_, fun d f fs now db => rfl,
    fun a d s fs now db => rfl, ?_,
    fun α c body => rfl, ?_, fun α body => rfl, fun α a body => rfl, ?_,
    fun e fs now db => rfl, fun e fs now db => rfl, fun e fs now db => rfl,
    ?_, ?_, ?_⟩
  · intro r d gc fs now db
    cases r <;> rfl
  · intro c d s fs now db
    cases c <;> rfl
  · intro α r body
    cases r <;> rfl
  · intro α c body
    cases c <;> rfl
  · intro r c d gc fs now db e db2 h
    exact getLastSyncTime_congr (whatsappSync_err h) "whatsapp"
  · intro a d f fs now db e db2 h
    exact gmailSync_err h
  · intro c a d s fs now db e db2 h
    exact notionSync_err h

/-- C4 (witness): a per-chat fetch error at time 9000000 on a database
whose WhatsApp watermark is 1000 yields a structured error result and
leaves the watermark reading unchanged. -/
theorem c4_structured_failures_witness :
    whatsappSyncToDatabase true true true (Except.ok [chatFailing]) false 9000000 dbWatermarked
      = (WASyncResult.err "boom",
         (whatsappSyncToDatabase true true true (Except.ok [chatFailing]) false 9000000
            dbWatermarked).2)
    ∧ getLastSyncTime
        (whatsappSyncToDatabase true true true (Except.ok [chatFailing]) false 9000000
          dbWatermarked).2 "whatsapp"
      = getLastSyncTime dbWatermarked "whatsapp" := by
  obtain ⟨h1, h2, h3, h4, h5, h6, h7, h8, h9, h10, h11, h12, h13, h14, h15, h16⟩ :=
    c4_structured_failures
  exact ⟨rfl, h14 true true true (Except.ok [chatFailing]) false 9000000 dbWatermarked "boom"
    _ rfl⟩

/-- C5: for every cache key, getCachedSummary returns null when nothing is
stored, and otherwise the stored payload with age = now minus the stored
timestamp and isStale exactly when the age exceeds the 2.5-hour
CACHE_MAX_AGE; in particular a get at the set time reports isStale =
false, a get more than 2.5 hours later reports isStale = true, and a get
within the threshold reports isStale = false. -/
theorem c5_cache_freshness {α : Type} (store : CacheStore α) (ty k : String)
    (now t0 now2 : Int) (d : α) :
    (lookupRow store (cacheKey ty k) = none → getCachedSummary store now ty k = none)
    ∧ (∀ c : CacheEntry α, lookupRow store (cacheKey ty k) = some c →
        getCachedSummary store now ty k
          = some ⟨c.data, c.timestamp, now - c.timestamp,
              decide (now - c.timestamp > CACHE_MAX_AGE)⟩)
    ∧ getCachedSummary (setCachedSummary store t0 ty k d) t0 ty k = some ⟨d, t0, 0, false⟩
    ∧ (now2 - t0 > CACHE_MAX_AGE →
        getCachedSummary (setCachedSummary store t0 ty k d) now2 ty k
          = some ⟨d, t0, now2 - t0, true⟩)
    ∧ (now2 - t0 ≤ CACHE_MAX_AGE →
        getCachedSummary (setCachedSummary store t0 ty k d) now2 ty k
          = some ⟨d, t0, now2 - t0, false⟩) := by
  refine ⟨?_, ?_, ?_, ?_, ?_⟩
  · intro h
    simp [getCachedSummary, h]
  · intro c h
    simp [getCachedSummary, h]
  · simp [getCachedSummary, setCachedSummary, lookupRow_upsert_self, CACHE_MAX_AGE]
  · intro h
    simp [getCachedSummary, setCachedSummary, lookupRow_upsert_self, h]
  · intro h
    simp [getCachedSummary, setCachedSummary, lookupRow_upsert_self]
    omega

/-- C5 (witness): an empty cache misses; an entry written at 0 and read at
9000001 ms (over 2.5 h later) is stale. -/
theorem c5_cache_freshness_witness :
    getCachedSummary ([] : CacheStore Nat) 5 "gmail" "today" = none
    ∧ getCachedSummary (setCachedSummary ([] : CacheStore Nat) 0 "gmail" "today" 7)
        9000001 "gmail" "today" = some ⟨7, 0, 9000001, true⟩ := by
  obtain ⟨h1, h2, h3, h4, h5⟩ :=
    c5_cache_freshness ([] : CacheStore Nat) "gmail" "today" 5 0 9000001 7
  exact ⟨h1 rfl, h4 (by decide)⟩

/-- C6: on a request without forced refresh, a fresh cache hit answers with
the cached payload and fromCache semantics and triggers no refresh at
all; a stale cache hit answers with the payload stored before the
request tagged isStale = true while launching an unawaited background
refresh, whose successfully refreshed value is only visible to a
getCachedSummary issued afterwards. -/
theorem c6_stale_while_revalidate {α : Type} (store : CacheStore α) (now : Int) (ty : String)
    (cached : CachedView α) (refreshResult : Except String α)
    (hc : getCachedSummary store now ty "today" = some cached) :
    (cached.isStale = false →
      getTodaySummaryHandler true store now ty false refreshResult
        = ⟨.cacheHit cached.data false cached.age, store, false⟩)
    ∧ (cached.isStale = true →
        (getTodaySummaryHandler true store now ty false refreshResult).response
            = .cacheHit cached.data true cached.age
        ∧ (getTodaySummaryHandler true store now ty false refreshResult).backgroundRefresh = true
        ∧ (∀ s, refreshResult = .ok s →
            getCachedSummary
              (getTodaySummaryHandler true store now ty false refreshResult).cacheAfter
              now ty "today" = some ⟨s, now, 0, false⟩)) := by
  constructor
  · intro h
    simp [getTodaySummaryHandler, hc, h]
  · intro h
    have hout : getTodaySummaryHandler true store now ty false refreshResult
        = ⟨.cacheHit cached.data true cached.age,
           (refreshTodaySummary store now ty refreshResult).2, true⟩ := by
      simp [getTodaySummaryHandler, hc, h]
    refine ⟨?_, ?_, ?_⟩
    · rw [hout]
    · rw [hout]
    · intro s hs
      rw [hout, hs]
      simp [refreshTodaySummary, getCachedSummary, setCachedSummary, lookupRow_upsert_self,
        CACHE_MAX_AGE]

/-- C6 (witness): a stale entry (42, written at 0, read at 10000000 ms) is
returned as the response while the background refresh writes 7 into the
cache for later requests. -/
theorem c6_stale_while_revalidate_witness :
    (getTodaySummaryHandler true cacheStoreSample 10000000 "gmail" false
        (Except.ok (7 : Nat))).response = TodayResponse.cacheHit 42 true 10000000
    ∧ (getTodaySummaryHandler true cacheStoreSample 10000000 "gmail" false
        (Except.ok (7 : Nat))).backgroundRefresh = true
    ∧ getCachedSummary
        (getTodaySummaryHandler true cacheStoreSample 10000000 "gmail" false
          (Except.ok (7 : Nat))).cacheAfter 10000000 "gmail" "today"
      = some ⟨7, 10000000, 0, false⟩ := by
  obtain ⟨hfresh, hstale⟩ := c6_stale_while_revalidate cacheStoreSample 10000000 "gmail"
    ⟨42, 0, 10000000, true⟩ (Except.ok 7) rfl
  obtain ⟨h1, h2, h3⟩ := hstale rfl
  exact ⟨h1, h2, h3 7 rfl⟩

/-- C7: in the get-all-summaries fan-out, a rejected provider only affects
its own key, which carries the structured error object; the other two
keys hold exactly what they hold under any other outcome of the failing
provider. -/
theorem c7_fanout_isolation {α β γ : Type} (g : Except (Option String) α)
    (w : Except (Option String) β) (n : Except (Option String) γ) (m : Option String) :
    ((getAllSummaries g (Except.error m : Except (Option String) β) n).whatsapp = .failedWith m
      ∧ (getAllSummaries g (Except.error m : Except (Option String) β) n).gmail = settle g
      ∧ (getAllSummaries g (Except.error m : Except (Option String) β) n).notion = settle n)
    ∧ ((getAllSummaries (Except.error m : Except (Option String) α) w n).gmail = .failedWith m
      ∧ (getAllSummaries (Except.error m : Except (Option String) α) w n).whatsapp = settle w
      ∧ (getAllSummaries (Except.error m : Except (Option String) α) w n).notion = settle n)
    ∧ ((getAllSummaries g w (Except.error m : Except (Option String) γ)).notion = .failedWith m
      ∧ (getAllSummaries g w (Except.error m : Except (Option String) γ)).gmail = settle g
      ∧ (getAllSummaries g w (Except.error m : Except (Option String) γ)).whatsapp = settle w) :=
  ⟨⟨rfl, rfl, rfl⟩, ⟨rfl, rfl, rfl⟩, ⟨rfl, rfl, rfl⟩⟩

/-- C8: upserting the same id twice, directly or through the bulk upsert
loop, leaves exactly one row under that id, holding the later payload
(INSERT OR REPLACE semantics: overwrite, never a duplicate and never a
failure on the duplicate). -/
theorem c8_upsert_idempotent {ρ : Type} (t : Table ρ) (id : String) (p1 p2 : ρ) :
    (upsertRow (upsertRow t id p1) id p2).filter (fun r => r.1 == id) = [(id, p2)]
    ∧ (bulkUpsert t [(id, p1), (id, p2)]).filter (fun r => r.1 == id) = [(id, p2)] :=
  ⟨filter_upsertRow .., filter_upsertRow ..⟩

/-- C9 (counterexample): the claim says every store query recognizes all
four time filters, with today mapped to local midnight.  The Notion
query does not: on a database holding one page last edited at 1000,
queried at now = 5184000 with the today filter, the page is returned
even though it was last edited more than a day before now, hence before
any possible local midnight (the query builds no WHERE clause for
today). -/
theorem c9_notion_today_unfiltered :
    getNotionPages dbNotionSample 5184000 "today" = [pageOld]
    ∧ pageOld.last_edited_time < 5184000 - 86400 :=
  ⟨rfl, by decide⟩

/-- C9 (amended): the WhatsApp and Gmail store queries and the live
WhatsApp summary filter recognize all four filters, returning exactly
the records with timestamp at or after the cutoff (today = the local
midnight passed as `ts`, week = now-7d, month = now-30d, no filter for
all); the Notion query recognizes only week and month (on
last_edited_time) and treats today like all. -/
theorem c9_time_filters_amended (db : SyncDb) (now ts : Int) :
    (∀ m, m ∈ getWhatsAppMessages db now ts "today"
        ↔ m ∈ db.whatsapp_messages.map (fun r => r.2) ∧ m.timestamp ≥ ts)
    ∧ (∀ m, m ∈ getWhatsAppMessages db now ts "week"
        ↔ m ∈ db.whatsapp_messages.map (fun r => r.2) ∧ m.timestamp ≥ now - weekSeconds)
    ∧ (∀ m, m ∈ getWhatsAppMessages db now ts "month"
        ↔ m ∈ db.whatsapp_messages.map (fun r => r.2) ∧ m.timestamp ≥ now - monthSeconds)
    ∧ getWhatsAppMessages db now ts "all" = db.whatsapp_messages.map (fun r => r.2)
    ∧ (∀ m, m ∈ getGmailMessages db now ts "today"
        ↔ m ∈ db.gmail_messages.map (fun r => r.2) ∧ m.timestamp ≥ ts)
    ∧ (∀ m, m ∈ getGmailMessages db now ts "week"
        ↔ m ∈ db.gmail_messages.map (fun r => r.2) ∧ m.timestamp ≥ now - weekSeconds)
    ∧ (∀ m, m ∈ getGmailMessages db now ts "month"
        ↔ m ∈ db.gmail_messages.map (fun r => r.2) ∧ m.timestamp ≥ now - monthSeconds)
    ∧ getGmailMessages db now ts "all" = db.gmail_messages.map (fun r => r.2)
    ∧ (∀ p, p ∈ getNotionPages db now "week"
        ↔ p ∈ db.notion_pages.map (fun r => r.2) ∧ p.last_edited_time ≥ now - weekSeconds)
    ∧ (∀ p, p ∈ getNotionPages db now "month"
        ↔ p ∈ db.notion_pages.map (fun r => r.2) ∧ p.last_edited_time ≥ now - monthSeconds)
    ∧ getNotionPages db now "today" = db.notion_pages.map (fun r => r.2)
    ∧ getNotionPages db now "all" = db.notion_pages.map (fun r => r.2)
    ∧ (∀ msgs (m : RawWAMsg), m ∈ whatsappSummaryFilter msgs "today" now ts
        ↔ m ∈ msgs ∧ m.timestamp ≥ ts)
    ∧ (∀ msgs (m : RawWAMsg), m ∈ whatsappSummaryFilter msgs "week" now ts
        ↔ m ∈ msgs ∧ m.timestamp ≥ now - weekSeconds)
    ∧ (∀ msgs (m : RawWAMsg), m ∈ whatsappSummaryFilter msgs "month" now ts
        ↔ m ∈ msgs ∧ m.timestamp ≥ now - monthSeconds)
    ∧ (∀ msgs, whatsappSummaryFilter msgs "all" now ts = msgs) := by
  refine ⟨?_, ?_, ?_, rfl, ?_, ?_, ?_, rfl, ?_, ?_, rfl, rfl, ?_, ?_, ?_, fun msgs => rfl⟩
  all_goals
    intro x
    simp [getWhatsAppMessages, getGmailMessages, getNotionPages, whatsappSummaryFilter,
      List.mem_filter]

/-- C10: the categorizer is total on every analyzed email, landing in
exactly one of the six category strings (personal by default), and the
getSummary bucketing loop therefore places every analyzed email into
exactly one bucket: the six bucket sizes always sum to the number of
analyzed emails. -/
theorem c10_categorizer_total :
    (∀ e : EmailInfo, categorizeEmail e = "promotions" ∨ categorizeEmail e = "social"
      ∨ categorizeEmail e = "updates" ∨ categorizeEmail e = "actionRequired"
      ∨ categorizeEmail e = "newsletters" ∨ categorizeEmail e = "personal")
    ∧ (∀ emails : List EmailInfo, totalBucketed (categorizeAll emails) = emails.length) := by
  refine ⟨categorizeEmail_cases, ?_⟩
  intro emails
  unfold categorizeAll
  rw [totalBucketed_foldl]
  simp [totalBucketed, emptyCategorized]

end MessagingPlanner
